import Mathlib

/-!
Verification of the text-comparison core of `html-visibility-analyzer`.

JavaScript numbers are modelled as rationals (`ℚ`); `Math.round` is
`jsRound` below (round half toward positive infinity), `Math.min`/`Math.max`
are `min`/`max` on `ℚ`, and integer word counts are `ℕ`.

The DOM-stripping collaborator (`stripTagsToText`, backed by cheerio /
DOMParser) is out of the verified core: per the specification the analysis
functions are modelled as operating on the two already-extracted plain-text
strings.  Fields of the returned records that no verified property reads
(the word/line diff reports, the DJB2 hashes, and the `…Formatted` display
strings) are not carried in the embedded records.
-/

namespace HtmlVis

/-- JavaScript `Math.round`: rounds half toward positive infinity. -/
def jsRound (x : ℚ) : ℤ := (x + 1/2).floor

/-- JavaScript `Math.round(x * 10) / 10`: round to one decimal place. -/
def round1 (x : ℚ) : ℚ := (jsRound (x * 10) : ℚ) / 10

/-- Tokenization granularity (`"word"` or `"line"` in the JavaScript API). -/
inductive Mode where
  | word
  | line
deriving DecidableEq, Repr

/-- Whitespace characters recognised when splitting text into tokens. -/
def isWs (c : Char) : Bool :=
  c = ' ' || c = '\t' || c = '\n' || c = '\r'

/-- Standardize line endings: CRLF and bare CR both become a single LF. -/
def stdNewlines : List Char → List Char
  | [] => []
  | '\r' :: '\n' :: rest => '\n' :: stdNewlines rest
  | '\r' :: rest => '\n' :: stdNewlines rest
  | c :: rest => c :: stdNewlines rest

/-- Split a character list into maximal runs of non-whitespace characters
(the accumulator holds the current run, reversed). -/
def splitWs : List Char → List Char → List (List Char)
  | [], acc => if acc.isEmpty then [] else [acc.reverse]
  | c :: cs, acc =>
    if isWs c then
      if acc.isEmpty then splitWs cs [] else acc.reverse :: splitWs cs []
    else splitWs cs (c :: acc)

/-- Split a character list at every line feed, keeping empty segments. -/
def splitNl : List Char → List Char → List (List Char)
  | [], acc => [acc.reverse]
  | c :: cs, acc =>
    if c = '\n' then acc.reverse :: splitNl cs [] else splitNl cs (c :: acc)

/-- Drop leading and trailing whitespace from a character list. -/
def trimChars (cs : List Char) : List Char :=
  ((cs.dropWhile isWs).reverse.dropWhile isWs).reverse

/-- Modelled from the spec: `tokenizer.js` is absent from the sources (only
its callers are present), so `tokenize(text, mode)` is modelled from §4.1.
Word mode standardizes line endings, collapses whitespace and splits on it
into non-empty tokens; line mode splits on normalized line breaks, trims
each line and drops empty lines.  The URL-placeholder protection and the
punctuation normalization of §4.1 (steps 2–3) are the identity on texts
containing no URLs and no space-adjacent punctuation; no verified property
depends on them and they are not modelled. -/
def tokenize (text : String) (mode : Mode) : List String :=
  let chars := stdNewlines text.data
  match mode with
  | .word => (splitWs chars []).map fun cs => String.mk cs
  | .line =>
      (((splitNl chars []).map trimChars).filter fun l => !l.isEmpty).map
        fun cs => String.mk cs

/-- Modelled from the spec: word count is the length of the word-mode
tokenization (`tokenizer.js` is absent from the sources). -/
def countWords (text : String) : ℕ :=
  (tokenize text .word).length

/-- Modelled from the spec: line count is the length of the line-mode
tokenization (`tokenizer.js` is absent from the sources). -/
def countLines (text : String) : ℕ :=
  (tokenize text .line).length

/-- Fuel-indexed longest-common-subsequence length, by the classic
recurrence of §4.2: `+1` on equal heads, otherwise the maximum of dropping
one head from either side.  Each step consumes one unit of fuel and shrinks
the combined length of the two lists by at least one, so fuel
`xs.length + ys.length` always suffices. -/
def lcsLenF : ℕ → List String → List String → ℕ
  | 0, _, _ => 0
  | _ + 1, [], _ => 0
  | _ + 1, _ :: _, [] => 0
  | fuel + 1, a :: as, b :: bs =>
    if a = b then lcsLenF fuel as bs + 1
    else max (lcsLenF fuel (a :: as) bs) (lcsLenF fuel as (b :: bs))

/-- Length of the longest common subsequence of two token lists. -/
def lcsLen (xs ys : List String) : ℕ :=
  lcsLenF (xs.length + ys.length) xs ys

/-- Modelled from the spec: `diff-engine.js` is absent from the sources, so
`calculateSimilarity(text1, text2, mode)` is modelled from §4.2: `100` when
both texts tokenize identically, `0` when the token sequences share no
common subsequence, otherwise `2·|LCS| / (|seq1|+|seq2|) · 100` rounded to
one decimal. -/
def calculateSimilarity (text1 text2 : String) (mode : Mode := .word) : ℚ :=
  let s1 := tokenize text1 mode
  let s2 := tokenize text2 mode
  if s1 = s2 then 100
  else
    let l := lcsLen s1 s2
    if l = 0 then 0
    else round1 (2 * (l : ℚ) / ((s1.length : ℚ) + (s2.length : ℚ)) * 100)

/-- The `wordCount` triple of a Metrics record (`analyzer.js`). -/
structure WordCount where
  initial : ℕ
  final : ℕ
  difference : ℤ
deriving DecidableEq, Repr

/-- The numeric Metrics record built by `analyzeContentDifference` and by
`analyzeVisibility` (`analyzer.js` / `index.js`).  The two display-string
fields (`contentGainFormatted`, `missingWordsFormatted`) are not carried. -/
structure Metrics where
  contentGain : ℚ
  missingWords : ℚ
  citationReadability : ℚ
  similarity : ℚ
  wordCount : WordCount
deriving DecidableEq, Repr

/-- Result record of `analyzeContentDifference` (`analyzer.js`).  The word
and line diff reports and the two DJB2 hash fields are not carried: they
depend on the absent `diff-engine.js` rendering layer and no verified
property reads them. -/
structure Analysis where
  initialText : String
  finalText : String
  initialTextLength : ℕ
  finalTextLength : ℕ
  textRetention : ℚ
  metrics : Metrics
deriving DecidableEq, Repr

/-- `calculateCitationReadability` from `analyzer.js`: `100` when the final
word count is `0`, otherwise `min(100, initial / final * 100)`. -/
def calculateCitationReadability (initialWordCount finalWordCount : ℚ) : ℚ :=
  if finalWordCount = 0 then 100
  else min 100 (initialWordCount / finalWordCount * 100)

/-- `analyzeContentDifference` from `analyzer.js`, modelled on the two
already-extracted plain texts (the upstream `stripTagsToText` DOM filter is
outside the verified core, and on plain text without markup it returns its
input unchanged). -/
def analyzeContentDifference (initText finText : String) : Analysis :=
  let initTextLength := initText.length
  let finTextLength := finText.length
  let textRetention : ℚ :=
    if 0 < finTextLength then (initTextLength : ℚ) / finTextLength else 0
  let initTokens := tokenize initText .word
  let finTokens := tokenize finText .word
  let contentGain : ℚ :=
    if 0 < initTokens.length then (finTokens.length : ℚ) / initTokens.length
    else 1
  let missingWords : ℚ := |(finTokens.length : ℚ) - (initTokens.length : ℚ)|
  let citationReadability :=
    calculateCitationReadability initTokens.length finTokens.length
  let similarity := calculateSimilarity initText finText .word
  { initialText := initText
    finalText := finText
    initialTextLength := initTextLength
    finalTextLength := finTextLength
    textRetention := textRetention
    metrics :=
      { contentGain := round1 contentGain
        missingWords := missingWords
        citationReadability := (jsRound citationReadability : ℚ)
        similarity := round1 similarity
        wordCount :=
          { initial := initTokens.length
            final := finTokens.length
            difference := (finTokens.length : ℤ) - (initTokens.length : ℤ) } } }

/-- The three weighted inputs reported by `generateVisibilityScore`. -/
structure Breakdown where
  citationReadability : ℚ
  similarity : ℚ
  contentGain : ℚ
deriving DecidableEq, Repr

/-- Result record of `generateVisibilityScore` (`analyzer.js`). -/
structure VisibilityScore where
  score : ℤ
  category : String
  description : String
  breakdown : Breakdown
deriving DecidableEq, Repr

/-- Description string of the `excellent` category (`analyzer.js`). -/
def descExcellent : String :=
  "Excellent - AI models can easily read and cite your content"

/-- Description string of the `good` category (`analyzer.js`). -/
def descGood : String :=
  "Good - Most of your content is visible to AI models"

/-- Description string of the `fair` category (`analyzer.js`). -/
def descFair : String :=
  "Fair - Some content may be missed by AI crawlers"

/-- Description string of the `poor` category (`analyzer.js`). -/
def descPoor : String :=
  "Poor - Significant content is hidden from AI models"

/-- `generateVisibilityScore` from `analyzer.js`.  The JavaScript function
receives the full analysis object and destructures `analysis.metrics`; it
is modelled directly on the Metrics record. -/
def generateVisibilityScore (m : Metrics) : VisibilityScore :=
  let normalizedContentGain : ℚ :=
    min 100 (max 0 (100 - (m.contentGain - 1) * 50))
  let weightedScore : ℚ :=
    m.citationReadability * (0.5 : ℚ) + m.similarity * (0.3 : ℚ) +
      normalizedContentGain * (0.2 : ℚ)
  let score := jsRound weightedScore
  let breakdown : Breakdown :=
    { citationReadability := m.citationReadability
      similarity := m.similarity
      contentGain := normalizedContentGain }
  if 90 ≤ score then
    ⟨score, "excellent", descExcellent, breakdown⟩
  else if 70 ≤ score then
    ⟨score, "good", descGood, breakdown⟩
  else if 50 ≤ score then
    ⟨score, "fair", descFair, breakdown⟩
  else
    ⟨score, "poor", descPoor, breakdown⟩

/-- Options accepted by the top-level functions of `index.js`. -/
structure AVOptions where
  ignoreNavFooter : Bool := true
  includeScore : Bool := true
deriving DecidableEq, Repr

/-- The `visibilityScore` record built inline by `analyzeVisibility`
(`index.js`); unlike `generateVisibilityScore` it has no breakdown. -/
structure SimpleScore where
  score : ℤ
  category : String
  description : String
deriving DecidableEq, Repr

/-- Result record of `analyzeVisibility` (`index.js`).  `visibilityScore`
is `none` exactly when the field is absent from the JavaScript object. -/
structure AVResult where
  initialText : String
  finalText : String
  metrics : Metrics
  visibilityScore : Option SimpleScore
deriving DecidableEq, Repr

/-- `analyzeVisibility` from `index.js`, modelled on the two
already-extracted plain texts (its synchronous path; the dynamic
`import(...).then(...)` block computes a value that is discarded).  Note
its inline metric formulas differ from `analyzeContentDifference`: a zero
initial word count yields `contentGain = words2` when `words2 > 0`, and
`citationReadability` is `100` when `words1 == 0` and `0` when `words1 > 0`
but `words2 == 0`. -/
def analyzeVisibility (text1 text2 : String) (options : AVOptions := {}) :
    AVResult :=
  let words1 := countWords text1
  let words2 := countWords text2
  let similarity := calculateSimilarity text1 text2
  let contentGain : ℚ :=
    if 0 < words1 then (words2 : ℚ) / words1
    else if 0 < words2 then (words2 : ℚ) else 1
  let missingWords : ℚ := |(words2 : ℚ) - (words1 : ℚ)|
  let citationReadability : ℚ :=
    if words1 = 0 then 100
    else if 0 < words2 then min 100 ((words1 : ℚ) / words2 * 100) else 0
  let metrics : Metrics :=
    { contentGain := round1 contentGain
      missingWords := missingWords
      citationReadability := (jsRound citationReadability : ℚ)
      similarity := round1 similarity
      wordCount :=
        { initial := words1
          final := words2
          difference := (words2 : ℤ) - (words1 : ℤ) } }
  let visibilityScore : Option SimpleScore :=
    if options.includeScore then
      let score := jsRound (citationReadability * (0.5 : ℚ) +
        similarity * (0.3 : ℚ) +
        min 100 (max 0 (100 - (contentGain - 1) * 50)) * (0.2 : ℚ))
      if 90 ≤ score then some ⟨score, "excellent", descExcellent⟩
      else if 70 ≤ score then some ⟨score, "good", descGood⟩
      else if 50 ≤ score then some ⟨score, "fair", descFair⟩
      else some ⟨score, "poor", descPoor⟩
    else none
  { initialText := text1
    finalText := text2
    metrics := metrics
    visibilityScore := visibilityScore }

/-- Recommendation string for low citation readability (`index.js`). -/
def recSSR : String :=
  "Consider implementing server-side rendering (SSR) to improve content visibility for AI crawlers"

/-- Recommendation string for high content gain (`index.js`). -/
def recClientSide : String :=
  "Significant content is loaded via JavaScript - ensure critical content is present in initial HTML"

/-- Recommendation string for a large missing-word count (`index.js`). -/
def recLargeGap : String :=
  "Large amount of content is missing from initial HTML - review your content loading strategy"

/-- Positive acknowledgment string (`index.js`). -/
def recGreatJob : String :=
  "Great job! Your content is well-optimized for AI visibility and citations"

/-- `generateRecommendations` from `index.js`: four independent checks on
the metrics, each appending one fixed string in source order. -/
def generateRecommendations (m : Metrics) : List String :=
  (if m.citationReadability < 50 then [recSSR] else []) ++
    (if 3 < m.contentGain then [recClientSide] else []) ++
      (if 1000 < m.missingWords then [recLargeGap] else []) ++
        (if 80 ≤ m.citationReadability ∧ m.contentGain < 1.5 then [recGreatJob]
         else [])

/-- The metrics projection returned by `getCitationReadiness`
(`index.js`). -/
structure CRMetrics where
  citationReadability : ℚ
  contentGain : ℚ
  missingWords : ℚ
  similarity : ℚ
deriving DecidableEq, Repr

/-- Result record of `getCitationReadiness` (`index.js`). -/
structure CitationReadiness where
  score : ℤ
  category : String
  description : String
  metrics : CRMetrics
  recommendations : List String
deriving DecidableEq, Repr

/-- `getCitationReadiness` from `index.js`.  The JavaScript falls back with
`analysis.visibilityScore?.score || 0` (and the analogous string
fallbacks); since a present score record never has a falsy category or
description and `0 || 0` is `0`, the fallback is value-equal to
`Option.getD`. -/
def getCitationReadiness (initialText renderedText : String)
    (options : AVOptions := {}) : CitationReadiness :=
  let analysis := analyzeVisibility initialText renderedText options
  { score := (analysis.visibilityScore.map fun v => v.score).getD 0
    category := (analysis.visibilityScore.map fun v => v.category).getD
      "unknown"
    description :=
      (analysis.visibilityScore.map fun v => v.description).getD
        "Analysis completed"
    metrics :=
      { citationReadability := analysis.metrics.citationReadability
        contentGain := analysis.metrics.contentGain
        missingWords := analysis.metrics.missingWords
        similarity := analysis.metrics.similarity }
    recommendations := generateRecommendations analysis.metrics }

end HtmlVis

namespace HtmlVis

theorem jsRound_eq_floor (x : ℚ) : jsRound x = ⌊x + 1/2⌋ := by
  unfold jsRound
  rw [Rat.floor_def, Rat.floor_def']

theorem lcsLenF_comm :
    ∀ (fuel : ℕ) (xs ys : List String),
      lcsLenF fuel xs ys = lcsLenF fuel ys xs
  | 0, _, _ => by simp [lcsLenF]
  | _ + 1, [], [] => rfl
  | _ + 1, [], _ :: _ => rfl
  | _ + 1, _ :: _, [] => rfl
  | fuel + 1, x :: xs, y :: ys => by
    by_cases h : x = y
    · subst h
      simp [lcsLenF, lcsLenF_comm fuel xs ys]
    · have h' : y ≠ x := fun hyx => h hyx.symm
      simp only [lcsLenF, if_neg h, if_neg h']
      rw [lcsLenF_comm fuel (x :: xs) ys, lcsLenF_comm fuel xs (y :: ys),
        Nat.max_comm]

theorem lcsLen_comm (xs ys : List String) : lcsLen xs ys = lcsLen ys xs := by
  unfold lcsLen
  rw [Nat.add_comm xs.length ys.length, lcsLenF_comm]

example : tokenize "hello world" .word = ["hello", "world"] := by decide
example : countWords "" = 0 := by decide
example : countWords "a b c" = 3 := by decide

example : calculateSimilarity "Hello world" "Goodbye universe" = 0 := by
  have h1 : tokenize "Hello world" .word = ["Hello", "world"] := by decide
  have h2 : tokenize "Goodbye universe" .word = ["Goodbye", "universe"] := by
    decide
  have h3 : lcsLen ["Hello", "world"] ["Goodbye", "universe"] = 0 := by decide
  simp [calculateSimilarity, h1, h2, h3]

example : calculateSimilarity "a b c" "a" = 50 := by
  have h1 : tokenize "a b c" .word = ["a", "b", "c"] := by decide
  have h2 : tokenize "a" .word = ["a"] := by decide
  have h3 : lcsLen ["a", "b", "c"] ["a"] = 1 := by decide
  simp [calculateSimilarity, h1, h2, h3, round1, jsRound_eq_floor]
  norm_num

theorem jsRound_intCast (z : ℤ) : jsRound (z : ℚ) = z := by
  rw [jsRound_eq_floor, Int.floor_eq_iff]
  exact ⟨by linarith, by linarith⟩

theorem round1_intCast (z : ℤ) : round1 (z : ℚ) = z := by
  unfold round1
  have h : (z : ℚ) * 10 = ((z * 10 : ℤ) : ℚ) := by push_cast; ring
  rw [h, jsRound_intCast]
  push_cast
  ring

theorem round1_natCast (n : ℕ) : round1 (n : ℚ) = n := by
  have h := round1_intCast (n : ℤ)
  push_cast at h
  exact h

theorem min_hi_max_lo (x : ℚ) :
    min 100 (max 0 x) = max 0 (min 100 x) := by
  simp only [min_def, max_def]
  split_ifs <;> linarith

/-- The citation-readability formula exactly as the specification words it,
on non-negative integer word counts. -/
def citationReadabilitySpec (count1 count2 : ℕ) : ℚ :=
  if count2 = 0 then 100 else min 100 ((count1 : ℚ) / (count2 : ℚ) * 100)

/-- C1: for all non-negative integer word counts `count1` and `count2`,
`calculateCitationReadability(count1, count2)` returns `100` when
`count2 == 0` and `min(100, count1 / count2 * 100)` otherwise. -/
theorem calculateCitationReadability_matches_spec (count1 count2 : ℕ) :
    calculateCitationReadability count1 count2 =
      citationReadabilitySpec count1 count2 := by
  unfold calculateCitationReadability citationReadabilitySpec
  by_cases h : count2 = 0
  · simp [h]
  · have h' : (count2 : ℚ) ≠ 0 := Nat.cast_ne_zero.mpr h
    simp [h, h']

/-- Clamp `x` into the interval from `lo` to `hi`. -/
def clamp (x lo hi : ℚ) : ℚ := max lo (min hi x)

/-- The visibility-score computation exactly as the specification words it:
`normalizedGain = clamp(100 - (contentGain - 1) * 50, 0, 100)`,
`score = round(0.5 * citationReadability + 0.3 * similarity +
0.2 * normalizedGain)`, category by inclusive lower bounds 90/70/50 with
the fixed description strings. -/
def generateVisibilityScoreSpec (m : Metrics) : VisibilityScore :=
  let normalizedGain := clamp (100 - (m.contentGain - 1) * 50) 0 100
  let score := jsRound ((0.5 : ℚ) * m.citationReadability +
    (0.3 : ℚ) * m.similarity + (0.2 : ℚ) * normalizedGain)
  let breakdown : Breakdown :=
    { citationReadability := m.citationReadability
      similarity := m.similarity
      contentGain := normalizedGain }
  if 90 ≤ score then ⟨score, "excellent", descExcellent, breakdown⟩
  else if 70 ≤ score then ⟨score, "good", descGood, breakdown⟩
  else if 50 ≤ score then ⟨score, "fair", descFair, breakdown⟩
  else ⟨score, "poor", descPoor, breakdown⟩

/-- C2: for every Metrics record, `generateVisibilityScore` computes
`score = round(0.5 * citationReadability + 0.3 * similarity +
0.2 * normalizedGain)` with
`normalizedGain = clamp(100 - (contentGain - 1) * 50, 0, 100)`, and
assigns the category by inclusive lower bounds 90 (excellent), 70 (good),
50 (fair), else poor, each with its fixed description string. -/
theorem generateVisibilityScore_matches_spec (m : Metrics) :
    generateVisibilityScore m = generateVisibilityScoreSpec m := by
  simp only [generateVisibilityScore, generateVisibilityScoreSpec, clamp]
  rw [min_hi_max_lo]
  ring_nf

/-- C3 counterexample: on the empty initial text and the one-word final
text `"hello"`, `analyzeContentDifference` reports a citation readability
of `0`, not `100`: `calculateCitationReadability(0, 1) = min(100, 0) = 0`
(the `count1 == 0 → 100` special case exists only in `analyzeVisibility`
in `index.js`, not in `analyzer.js`). -/
theorem analyzeContentDifference_empty_base_cex :
    ("hello" : String) ≠ "" ∧
      (analyzeContentDifference "" "hello").metrics.citationReadability ≠
        100 := by
  refine ⟨by decide, ?_⟩
  have h1 : tokenize "" .word = ([] : List String) := by decide
  have h2 : tokenize "hello" .word = ["hello"] := by decide
  simp [analyzeContentDifference, calculateCitationReadability, h1, h2,
    jsRound_eq_floor]
  norm_num

/-- C3 (amended): for every nonempty text `h`,
`analyzeContentDifference("", h)` returns `contentGain ≥ 1`, and returns
`citationReadability = 100` when `h` tokenizes to zero words and
`citationReadability = 0` when `h` tokenizes to one or more words. -/
theorem analyzeContentDifference_empty_base_amended (h : String)
    (_hne : h ≠ "") :
    1 ≤ (analyzeContentDifference "" h).metrics.contentGain ∧
      (analyzeContentDifference "" h).metrics.citationReadability =
        (if (tokenize h .word).length = 0 then (100 : ℚ) else 0) := by
  have h1 : tokenize "" .word = ([] : List String) := by decide
  constructor
  · simp [analyzeContentDifference, h1]
    have := round1_intCast 1
    push_cast at this
    simp [this]
  · by_cases h0 : (tokenize h .word).length = 0
    · simp [analyzeContentDifference, calculateCitationReadability, h1, h0,
        jsRound_eq_floor]
      norm_num
    · have hq : ((tokenize h .word).length : ℚ) ≠ 0 := Nat.cast_ne_zero.mpr h0
      simp [analyzeContentDifference, calculateCitationReadability, h1, h0,
        hq, jsRound_eq_floor]
      norm_num

/-- C3 witness: the amended statement instantiated at the nonempty text
`"hello"`. -/
theorem analyzeContentDifference_empty_base_witness :
    ("hello" : String) ≠ "" ∧
      (1 ≤ (analyzeContentDifference "" "hello").metrics.contentGain ∧
        (analyzeContentDifference "" "hello").metrics.citationReadability =
          (if (tokenize "hello" .word).length = 0 then (100 : ℚ) else 0)) :=
  ⟨by decide, analyzeContentDifference_empty_base_amended "hello" (by decide)⟩

/-- C4 counterexample: on the texts `"a b c"` (three words) and `"a"` (one
word) the stored `metrics.contentGain` is `round(1/3 * 10)/10 = 0.3`, not
the exact ratio `1/3`. -/
theorem analyzeContentDifference_contentGain_cex :
    countWords "a b c" = 3 ∧ countWords "a" = 1 ∧
      (analyzeContentDifference "a b c" "a").metrics.contentGain ≠
        (countWords "a" : ℚ) / (countWords "a b c" : ℚ) := by
  refine ⟨by decide, by decide, ?_⟩
  have h1 : tokenize "a b c" .word = ["a", "b", "c"] := by decide
  have h2 : tokenize "a" .word = ["a"] := by decide
  simp [analyzeContentDifference, countWords, h1, h2, round1,
    jsRound_eq_floor]
  norm_num

/-- C4 (amended): for every pair of input texts, the `metrics.contentGain`
field of `analyzeContentDifference` equals the one-decimal rounding of
`count2 / count1` when the first text's word count `count1 > 0`, and of
`1` when `count1 == 0`. -/
theorem analyzeContentDifference_contentGain_rounded (t1 t2 : String) :
    (analyzeContentDifference t1 t2).metrics.contentGain =
      round1
        (if 0 < countWords t1 then (countWords t2 : ℚ) / (countWords t1 : ℚ)
         else 1) :=
  rfl

/-- C5: on identical inputs, `analyzeContentDifference` yields
`contentGain = 1`, `missingWords = 0`, `citationReadability = 100`, and
`generateVisibilityScore` on the resulting metrics yields a score above
90. -/
theorem analyzeContentDifference_identical (h : String) :
    (analyzeContentDifference h h).metrics.contentGain = 1 ∧
      (analyzeContentDifference h h).metrics.missingWords = 0 ∧
        (analyzeContentDifference h h).metrics.citationReadability = 100 ∧
          90 <
            (generateVisibilityScore
              (analyzeContentDifference h h).metrics).score := by
  have hsim : calculateSimilarity h h .word = 100 := by
    unfold calculateSimilarity
    simp
  have hone : round1 1 = 1 := by
    have := round1_intCast 1
    push_cast at this
    simpa using this
  have hhundredR : round1 100 = 100 := by
    have := round1_intCast 100
    push_cast at this
    simpa using this
  have hhundredJ : jsRound 100 = 100 := by
    have := jsRound_intCast 100
    push_cast at this
    simpa using this
  have hgain : (analyzeContentDifference h h).metrics.contentGain = 1 := by
    simp only [analyzeContentDifference]
    by_cases h0 : 0 < (tokenize h .word).length
    · have hq : ((tokenize h .word).length : ℚ) ≠ 0 :=
        Nat.cast_ne_zero.mpr (Nat.pos_iff_ne_zero.mp h0)
      simp [h0, div_self hq, hone]
    · simp [h0, hone]
  have hcit :
      (analyzeContentDifference h h).metrics.citationReadability = 100 := by
    simp only [analyzeContentDifference, calculateCitationReadability]
    by_cases h0 : ((tokenize h .word).length : ℚ) = 0
    · simp [h0, hhundredJ]
    · simp [h0, div_self h0, hhundredJ]
  have hmiss : (analyzeContentDifference h h).metrics.missingWords = 0 := by
    simp [analyzeContentDifference]
  have hsimF : (analyzeContentDifference h h).metrics.similarity = 100 := by
    simp [analyzeContentDifference, hsim, hhundredR]
  refine ⟨hgain, hmiss, hcit, ?_⟩
  simp only [generateVisibilityScore, hgain, hcit, hsimF]
  have harg :
      (100 : ℚ) * 0.5 + 100 * 0.3 + min 100 (max 0 (100 - (1 - 1) * 50)) * 0.2 =
        100 := by norm_num
  rw [harg, hhundredJ]
  norm_num

/-- C6: the similarity value is symmetric under swapping the two input
texts, in either tokenization mode. -/
theorem calculateSimilarity_symm (t1 t2 : String) (mode : Mode) :
    calculateSimilarity t1 t2 mode = calculateSimilarity t2 t1 mode := by
  simp only [calculateSimilarity]
  by_cases h : tokenize t1 mode = tokenize t2 mode
  · rw [if_pos h, if_pos h.symm]
  · have h' : tokenize t2 mode ≠ tokenize t1 mode := fun e => h e.symm
    simp only [if_neg h, if_neg h']
    rw [lcsLen_comm, add_comm ((tokenize t1 mode).length : ℚ)]

/-- The recommendation rule table exactly as the specification words it:
each rule is an independent predicate on the Metrics record paired with its
fixed recommendation string, listed in evaluation order. -/
def recommendationRules : List ((Metrics → Bool) × String) :=
  [(fun m => decide (m.citationReadability < 50), recSSR),
   (fun m => decide (3 < m.contentGain), recClientSide),
   (fun m => decide (1000 < m.missingWords), recLargeGap),
   (fun m => decide (80 ≤ m.citationReadability ∧ m.contentGain < 1.5),
     recGreatJob)]

/-- Recommendations as the spec describes them: every applicable rule of
the fixed table fires, in table order. -/
def recommendationsFromRules (m : Metrics) : List String :=
  (recommendationRules.filter fun r => r.1 m).map fun r => r.2

/-- C7: `generateRecommendations` is the fixed rule table over the Metrics
record — readability below 50 suggests server-side rendering, content gain
above 3 flags heavy client-side loading, more than 1000 missing words
flags a large content gap, and readability at least 80 with gain below 1.5
adds the positive acknowledgment; the rules are independent, every
applicable rule fires, and the output follows the rule-evaluation order. -/
theorem generateRecommendations_matches_rule_table (m : Metrics) :
    generateRecommendations m = recommendationsFromRules m := by
  by_cases h1 : m.citationReadability < 50 <;>
    by_cases h2 : 3 < m.contentGain <;>
      by_cases h3 : 1000 < m.missingWords <;>
        by_cases h4 : 80 ≤ m.citationReadability ∧ m.contentGain < 1.5 <;>
          simp [generateRecommendations, recommendationsFromRules,
            recommendationRules, List.filter, h1, h2, h3, h4]

/-- C8: the `breakdown.contentGain` field reported by
`generateVisibilityScore` is the normalized gain
`clamp(100 - (contentGain - 1) * 50, 0, 100)`, and (second conjunct) it is
not the raw `contentGain` ratio taken from the input metrics: on a record
with `contentGain = 3` the breakdown reports `0`. -/
theorem generateVisibilityScore_breakdown_normalized :
    (∀ m : Metrics,
        (generateVisibilityScore m).breakdown.contentGain =
          min 100 (max 0 (100 - (m.contentGain - 1) * 50))) ∧
      (generateVisibilityScore ⟨3, 0, 100, 100, ⟨1, 3, 2⟩⟩).breakdown.contentGain ≠
        (⟨3, 0, 100, 100, ⟨1, 3, 2⟩⟩ : Metrics).contentGain := by
  have key : ∀ m : Metrics,
      (generateVisibilityScore m).breakdown.contentGain =
        min 100 (max 0 (100 - (m.contentGain - 1) * 50)) := by
    intro m
    simp only [generateVisibilityScore]
    split_ifs <;> rfl
  refine ⟨key, ?_⟩
  rw [key]
  norm_num

/-- C9: when the initial text has zero word tokens and the final text has
`n > 0` word tokens, `analyzeVisibility` reports `metrics.contentGain = n`
(the raw final word count; rounding to one decimal is the identity on a
natural number), not the degenerate `1` used by
`analyzeContentDifference`. -/
theorem analyzeVisibility_zero_initial_contentGain (t1 t2 : String)
    (options : AVOptions) (h1 : countWords t1 = 0)
    (h2 : 0 < countWords t2) :
    (analyzeVisibility t1 t2 options).metrics.contentGain =
      (countWords t2 : ℚ) := by
  simp only [analyzeVisibility]
  simp [h1, h2, round1_natCast]

/-- C9 witness: the empty initial text against the two-word final text
`"hello world"` reports a content gain of that text's word count. -/
theorem analyzeVisibility_zero_initial_contentGain_witness :
    countWords "" = 0 ∧ 0 < countWords "hello world" ∧
      (analyzeVisibility "" "hello world" {}).metrics.contentGain =
        (countWords "hello world" : ℚ) :=
  ⟨by decide, by decide,
    analyzeVisibility_zero_initial_contentGain "" "hello world" {}
      (by decide) (by decide)⟩

/-- C10: with `includeScore: false`, `getCitationReadiness` returns score
`0`, category `"unknown"` and description `"Analysis completed"`, the
category being none of the four named categories. -/
theorem getCitationReadiness_without_score (t1 t2 : String)
    (ignoreNav : Bool) :
    (getCitationReadiness t1 t2 ⟨ignoreNav, false⟩).score = 0 ∧
      (getCitationReadiness t1 t2 ⟨ignoreNav, false⟩).category = "unknown" ∧
        (getCitationReadiness t1 t2 ⟨ignoreNav, false⟩).description =
          "Analysis completed" ∧
          ("unknown" : String) ≠ "excellent" ∧
            ("unknown" : String) ≠ "good" ∧
              ("unknown" : String) ≠ "fair" ∧
                ("unknown" : String) ≠ "poor" := by
  refine ⟨?_, ?_, ?_, by decide, by decide, by decide, by decide⟩ <;>
    simp [getCitationReadiness, analyzeVisibility]

end HtmlVis
